import Mathlib

/-!
Verification of the delay-calculation and health-literacy-scoring engine of
the TB study data-collection application (`tb_study_app.py`).

Calendar dates are embedded as `Int` day ordinals: Python's
`(d2 - d1).days` on `datetime.date` values is exactly the difference of the
two day ordinals, so date subtraction becomes integer subtraction.
Optional (not-yet-observed) dates are `Option Int`.
-/

/-- The fields of `st.session_state.participant_data` that the timing engine
reads and writes: the four milestone dates and the derived delay fields.
Field names follow the Python dictionary keys. -/
structure ParticipantData where
  Date_Symptom_Onset : Option Int
  Date_First_Visit : Option Int
  Date_Diagnosis : Option Int
  Date_Treatment_Start : Option Int
  Patient_Delay : Int
  Healthcare_Provider_Related_Delay : Int
  Treatment_Delay : Int
  Total_Delay : Int
  TB_Unit_TU : Int
  Healthcare_Providers : Int
  No_Delay : Bool
  deriving Repr, DecidableEq

/-- `calculate_delays` (tb_study_app.py lines 118-148): if all four dates are
available, compute the four whole-day delay metrics, the two exported alias
fields and the no-delay flag, and return `True`; otherwise leave the record
unchanged and return `False`.  The returned pair is (return value, record
after the call), making the in-place mutation of `participant_data`
explicit. -/
def calculate_delays (data : ParticipantData) : Bool × ParticipantData :=
  match data.Date_Symptom_Onset, data.Date_First_Visit,
        data.Date_Diagnosis, data.Date_Treatment_Start with
  | some symptom_date, some first_visit_date, some diagnosis_date, some treatment_date =>
      let patient_delay := first_visit_date - symptom_date
      let provider_delay := diagnosis_date - first_visit_date
      let treatment_delay := treatment_date - diagnosis_date
      let total_delay := treatment_date - symptom_date
      (true,
       { data with
           Patient_Delay := patient_delay
           Healthcare_Provider_Related_Delay := provider_delay
           Treatment_Delay := treatment_delay
           Total_Delay := total_delay
           TB_Unit_TU := provider_delay
           Healthcare_Providers := provider_delay
           No_Delay := (total_delay == 0) })
  | _, _, _, _ => (false, data)

/-- The fixed milestone names used in the error message of `validate_dates`
(tb_study_app.py lines 160-165). -/
def date_names : List String :=
  ["Symptom Onset", "First Visit", "Diagnosis", "Treatment Start"]

/-- The loop body of `validate_dates` (tb_study_app.py lines 167-172):
walk the adjacent pairs of the date list; at the first pair where both dates
are present and the earlier-stage one is strictly later, return `False` with
the sequence-error message; otherwise return `True`. -/
def validate_dates_loop : List (Option Int) → List String → Bool × String
  | d₀ :: d₁ :: ds, n₀ :: n₁ :: ns =>
      match d₀, d₁ with
      | some a, some b =>
          if a > b then
            (false, "Date sequence error: " ++ n₀ ++ " cannot be after " ++ n₁)
          else
            validate_dates_loop (d₁ :: ds) (n₁ :: ns)
      | _, _ => validate_dates_loop (d₁ :: ds) (n₁ :: ns)
  | _, _ => (true, "Dates are valid")

/-- `validate_dates` (tb_study_app.py lines 150-172): validate that the four
milestone dates are in logical sequence, checking only adjacent pairs where
both dates are present. -/
def validate_dates (data : ParticipantData) : Bool × String :=
  validate_dates_loop
    [data.Date_Symptom_Onset, data.Date_First_Visit,
     data.Date_Diagnosis, data.Date_Treatment_Start]
    date_names

/-- Specification-side predicate: an adjacent pair makes no ordering demand
unless both dates are present, in which case it must be non-decreasing. -/
def pairOk : Option Int → Option Int → Bool
  | some a, some b => decide (a ≤ b)
  | _, _ => true

/-- Specification-side: the error message `validate_dates` produces for a
violation at adjacent pair (i, i+1). -/
def seqErrorMsg (i : Nat) : String :=
  "Date sequence error: " ++ (date_names.getD i "") ++ " cannot be after "
    ++ (date_names.getD (i + 1) "")

/-- Specification-side: every adjacent pair of the list satisfies
`pairOk`. -/
def adjPairsOk : List (Option Int) → Bool
  | d₀ :: d₁ :: ds => pairOk d₀ d₁ && adjPairsOk (d₁ :: ds)
  | _ => true

/-- The `reverse_score` flag of the `dhli_questions` dictionary of
`section_dhli` (tb_study_app.py lines 832-884): only `DHLI_Q9` carries
`reverse_score: True`; `.get('reverse_score', False)` is false for every
other question. `q_num` is the 1-indexed question number. -/
def dhli_reverse_score (q_num : Nat) : Bool := q_num == 9

/-- The per-question store step of `section_dhli` (tb_study_app.py lines
910-915): the stored session value for question `q_num` is `1 - response`
when the question is reverse-scored and `response` unchanged otherwise.
The radio widget supplies `response ∈ {0, 1}` (options `[0, 1]`). -/
def dhli_store (q_num : Nat) (response : Int) : Int :=
  if dhli_reverse_score q_num then 1 - response else response

/-- The DHLI total (tb_study_app.py line 924): the sum of the stored
session values of questions 1..10. -/
def dhli_total_score (stored : Nat → Int) : Int :=
  ∑ i in Finset.Icc 1 10, stored i

/-- The DHLI interpretation banding (tb_study_app.py lines 940-948, repeated
at lines 1038-1044): High for total ≥ 7, Moderate for total ≥ 4, Low
otherwise. -/
def dhli_level (total_score : Int) : String :=
  if total_score ≥ 7 then "High"
  else if total_score ≥ 4 then "Moderate"
  else "Low"

/-- Specification-side rank of the three ordinal bands, used to state
monotonicity: Low < Moderate < High. -/
def levelRank (level : String) : Nat :=
  if level = "High" then 2 else if level = "Moderate" then 1 else 0

/-- Modelled from the spec: the `InstrumentSpec` state of §4.2 (the source
has no explicit instrument-spec record; its binary variant is hard-coded in
`section_dhli`): per-item value domain `[min_value, max_value]`, the set of
item indices in the formal total, and which items are reverse-scored. -/
structure InstrumentSpec where
  item_count : Nat
  min_value : Int
  max_value : Int
  formal_items : Finset Nat
  reverse_scored : Nat → Bool

/-- Modelled from the spec: the error kinds of §7 raised by the scoring
engine (the source constrains inputs through widgets instead of raising). -/
inductive ScoreError where
  | OutOfRangeError
  deriving DecidableEq, Repr

/-- Modelled from the spec: `record_response` of §4.2 (absent from src,
where the radio widget constrains the raw value): fail with
`OutOfRangeError` when `raw_value` lies outside the instrument's declared
per-item domain; otherwise store the transformed value
`(max_value + min_value) - raw_value` for a reverse-scored item and
`raw_value` unchanged for any other item. -/
def record_response (spec : InstrumentSpec) (item_index : Nat) (raw_value : Int) :
    Except ScoreError Int :=
  if raw_value < spec.min_value || spec.max_value < raw_value then
    .error .OutOfRangeError
  else if spec.reverse_scored item_index then
    .ok (spec.max_value + spec.min_value - raw_value)
  else
    .ok raw_value

/-- The binary 10-item DHLI variant of `section_dhli`, written as an
`InstrumentSpec`: items 1..10 with domain {0, 1}, all items in the formal
total, item 9 reverse-scored. -/
def binary_dhli_spec : InstrumentSpec :=
  { item_count := 10
    min_value := 0
    max_value := 1
    formal_items := Finset.Icc 1 10
    reverse_scored := fun i => i == 9 }

/-- Modelled from the spec: the formal total of the 5-point 10-item
instrument variant (§3, absent from src): the sum of items 3-10 only;
items 1-2 are supplementary and excluded. -/
def likert_total_score (items : Nat → Int) : Int :=
  ∑ i in Finset.Icc 3 10, items i

/-- Modelled from the spec: the banding of the 5-point 10-item instrument
variant (§3, absent from src): High for total ≥ 32, Moderate for 24-31,
Low for total < 24. -/
def likert_level (total : Int) : String :=
  if total ≥ 32 then "High"
  else if total ≥ 24 then "Moderate"
  else "Low"

/-- A record holding the spec's Scenario A timeline, with dates as day
ordinals relative to 2024-01-01 (so 2024-01-10 is day 9, 2024-01-20 day 19,
2024-01-25 day 24) and all derived fields at their initial defaults. -/
def recScenarioA : ParticipantData :=
  { Date_Symptom_Onset := some 0
    Date_First_Visit := some 9
    Date_Diagnosis := some 19
    Date_Treatment_Start := some 24
    Patient_Delay := 0
    Healthcare_Provider_Related_Delay := 0
    Treatment_Delay := 0
    Total_Delay := 0
    TB_Unit_TU := 0
    Healthcare_Providers := 0
    No_Delay := false }

/-- A record holding the spec's Scenario B timeline: all four dates equal
(2024-03-01, taken as day ordinal 60). -/
def recScenarioB : ParticipantData :=
  { Date_Symptom_Onset := some 60
    Date_First_Visit := some 60
    Date_Diagnosis := some 60
    Date_Treatment_Start := some 60
    Patient_Delay := 0
    Healthcare_Provider_Related_Delay := 0
    Treatment_Delay := 0
    Total_Delay := 0
    TB_Unit_TU := 0
    Healthcare_Providers := 0
    No_Delay := false }

/-- A partial record: the diagnosis and treatment dates are still absent. -/
def recPartial : ParticipantData :=
  { Date_Symptom_Onset := some 0
    Date_First_Visit := some 9
    Date_Diagnosis := none
    Date_Treatment_Start := none
    Patient_Delay := 0
    Healthcare_Provider_Related_Delay := 0
    Treatment_Delay := 0
    Total_Delay := 0
    TB_Unit_TU := 0
    Healthcare_Providers := 0
    No_Delay := false }

/-- A record holding the spec's Scenario C timeline: onset 2024-02-10
(day 40), first visit 2024-02-05 (day 35, strictly earlier), later dates
absent. -/
def recScenarioC : ParticipantData :=
  { Date_Symptom_Onset := some 40
    Date_First_Visit := some 35
    Date_Diagnosis := none
    Date_Treatment_Start := none
    Patient_Delay := 0
    Healthcare_Provider_Related_Delay := 0
    Treatment_Delay := 0
    Total_Delay := 0
    TB_Unit_TU := 0
    Healthcare_Providers := 0
    No_Delay := false }

/-- The raw DHLI responses of the spec's Scenario D: every item answered 1
except item 9, whose raw input is 0. -/
def scenarioD_raw : Nat → Int := fun i => if i = 9 then 0 else 1

/-- The 5-point-instrument responses of the spec's Scenario E: items 3-10
all 3. -/
def scenarioE_items : Nat → Int := fun _ => 3

/-- A variant of the Scenario E responses that differs only on the
supplementary items 1-2. -/
def scenarioE_alt : Nat → Int := fun i => if i ≤ 2 then 5 else 3

/-- C2: for every complete set of four milestone dates that passes sequence
validation, `calculate_delays` computes each delay as the whole-day
difference of the corresponding pair of dates, and
patient + provider + treatment delay equals the total delay exactly. -/
theorem calculate_delays_telescoping (data : ParticipantData) (s f d t : Int)
    (hs : data.Date_Symptom_Onset = some s)
    (hf : data.Date_First_Visit = some f)
    (hd : data.Date_Diagnosis = some d)
    (ht : data.Date_Treatment_Start = some t)
    (_hv : (validate_dates data).1 = true) :
    (calculate_delays data).2.Patient_Delay = f - s
    ∧ (calculate_delays data).2.Healthcare_Provider_Related_Delay = d - f
    ∧ (calculate_delays data).2.Treatment_Delay = t - d
    ∧ (calculate_delays data).2.Total_Delay = t - s
    ∧ (calculate_delays data).2.Patient_Delay
        + (calculate_delays data).2.Healthcare_Provider_Related_Delay
        + (calculate_delays data).2.Treatment_Delay
      = (calculate_delays data).2.Total_Delay := by
  simp [calculate_delays, hs, hf, hd, ht]

/-- Witness for C2 at the Scenario A record. -/
theorem calculate_delays_telescoping_witness :
    (calculate_delays recScenarioA).2.Patient_Delay = 9 - 0
    ∧ (calculate_delays recScenarioA).2.Healthcare_Provider_Related_Delay = 19 - 9
    ∧ (calculate_delays recScenarioA).2.Treatment_Delay = 24 - 19
    ∧ (calculate_delays recScenarioA).2.Total_Delay = 24 - 0
    ∧ (calculate_delays recScenarioA).2.Patient_Delay
        + (calculate_delays recScenarioA).2.Healthcare_Provider_Related_Delay
        + (calculate_delays recScenarioA).2.Treatment_Delay
      = (calculate_delays recScenarioA).2.Total_Delay :=
  calculate_delays_telescoping recScenarioA 0 9 19 24 rfl rfl rfl rfl (by decide)

/-- C7: whenever at least one of the four milestone dates is absent,
`calculate_delays` returns `False` and leaves the whole record, and in
particular every derived delay field, unchanged. -/
theorem calculate_delays_partial_skip (data : ParticipantData)
    (h : data.Date_Symptom_Onset = none ∨ data.Date_First_Visit = none
       ∨ data.Date_Diagnosis = none ∨ data.Date_Treatment_Start = none) :
    calculate_delays data = (false, data) := by
  obtain ⟨o₁, o₂, o₃, o₄, p, hp, td, tot, tu, hc, nd⟩ := data
  rcases o₁ with _ | a <;> rcases o₂ with _ | b <;> rcases o₃ with _ | c <;>
    rcases o₄ with _ | e <;> simp_all [calculate_delays]

/-- Witness for C7 at the partial record. -/
theorem calculate_delays_partial_skip_witness :
    calculate_delays recPartial = (false, recPartial) :=
  calculate_delays_partial_skip recPartial (by decide)

/-- C8: `calculate_delays` is idempotent and deterministic on complete valid
date sets: running it on its own output changes nothing further. -/
theorem calculate_delays_idempotent (data : ParticipantData) (s f d t : Int)
    (hs : data.Date_Symptom_Onset = some s)
    (hf : data.Date_First_Visit = some f)
    (hd : data.Date_Diagnosis = some d)
    (ht : data.Date_Treatment_Start = some t)
    (_hv : (validate_dates data).1 = true) :
    calculate_delays (calculate_delays data).2 = calculate_delays data := by
  obtain ⟨o₁, o₂, o₃, o₄, p, hp, td, tot, tu, hc, nd⟩ := data
  simp_all [calculate_delays]

/-- Witness for C8 at the Scenario A record. -/
theorem calculate_delays_idempotent_witness :
    calculate_delays (calculate_delays recScenarioA).2 = calculate_delays recScenarioA :=
  calculate_delays_idempotent recScenarioA 0 9 19 24 rfl rfl rfl rfl (by decide)

/-- C9: after `calculate_delays` on a complete valid date set, the `No_Delay`
flag equals (`Total_Delay` == 0); when all four dates are equal, all four
durations are 0 and the flag is true. -/
theorem calculate_delays_no_delay_flag (data : ParticipantData) (s f d t : Int)
    (hs : data.Date_Symptom_Onset = some s)
    (hf : data.Date_First_Visit = some f)
    (hd : data.Date_Diagnosis = some d)
    (ht : data.Date_Treatment_Start = some t)
    (_hv : (validate_dates data).1 = true) :
    ((calculate_delays data).2.No_Delay = ((calculate_delays data).2.Total_Delay == 0))
    ∧ (s = f → f = d → d = t →
        (calculate_delays data).2.Patient_Delay = 0
        ∧ (calculate_delays data).2.Healthcare_Provider_Related_Delay = 0
        ∧ (calculate_delays data).2.Treatment_Delay = 0
        ∧ (calculate_delays data).2.Total_Delay = 0
        ∧ (calculate_delays data).2.No_Delay = true) := by
  constructor
  · simp [calculate_delays, hs, hf, hd, ht]
  · intro h₁ h₂ h₃
    subst h₁; subst h₂; subst h₃
    simp [calculate_delays, hs, hf, hd, ht]

/-- Witness for C9 at the Scenario B record (all four dates equal). -/
theorem calculate_delays_no_delay_flag_witness :
    (calculate_delays recScenarioB).2.Patient_Delay = 0
    ∧ (calculate_delays recScenarioB).2.Healthcare_Provider_Related_Delay = 0
    ∧ (calculate_delays recScenarioB).2.Treatment_Delay = 0
    ∧ (calculate_delays recScenarioB).2.Total_Delay = 0
    ∧ (calculate_delays recScenarioB).2.No_Delay = true :=
  (calculate_delays_no_delay_flag recScenarioB 60 60 60 60 rfl rfl rfl rfl
    (by decide)).2 rfl rfl rfl

/-- C10: after every successful run of `calculate_delays` (all four dates
present), the exported fields `TB_Unit_TU` and `Healthcare_Providers` both
equal the healthcare-provider-related delay, which is the diagnosis date
minus the first-visit date in days. -/
theorem calculate_delays_exported_aliases (data : ParticipantData) (s f d t : Int)
    (hs : data.Date_Symptom_Onset = some s)
    (hf : data.Date_First_Visit = some f)
    (hd : data.Date_Diagnosis = some d)
    (ht : data.Date_Treatment_Start = some t) :
    (calculate_delays data).1 = true
    ∧ (calculate_delays data).2.TB_Unit_TU
        = (calculate_delays data).2.Healthcare_Provider_Related_Delay
    ∧ (calculate_delays data).2.Healthcare_Providers
        = (calculate_delays data).2.Healthcare_Provider_Related_Delay
    ∧ (calculate_delays data).2.Healthcare_Provider_Related_Delay = d - f := by
  simp [calculate_delays, hs, hf, hd, ht]

/-- Witness for C10 at the Scenario A record. -/
theorem calculate_delays_exported_aliases_witness :
    (calculate_delays recScenarioA).1 = true
    ∧ (calculate_delays recScenarioA).2.TB_Unit_TU
        = (calculate_delays recScenarioA).2.Healthcare_Provider_Related_Delay
    ∧ (calculate_delays recScenarioA).2.Healthcare_Providers
        = (calculate_delays recScenarioA).2.Healthcare_Provider_Related_Delay
    ∧ (calculate_delays recScenarioA).2.Healthcare_Provider_Related_Delay = 19 - 9 :=
  calculate_delays_exported_aliases recScenarioA 0 9 19 24 rfl rfl rfl rfl

/-- Helper: `validate_dates_loop` succeeds exactly when every adjacent pair
of the date list is acceptable; on failure it reports a genuinely violating
pair together with the names of its two milestones. -/
theorem validate_dates_loop_spec (ds : List (Option Int)) :
    ∀ ns : List String, ds.length ≤ ns.length →
      (((validate_dates_loop ds ns).1 = true) ↔ adjPairsOk ds = true)
      ∧ (adjPairsOk ds = false →
          (validate_dates_loop ds ns).1 = false
          ∧ ∃ i, i + 1 < ds.length
              ∧ pairOk (ds.getD i none) (ds.getD (i + 1) none) = false
              ∧ (validate_dates_loop ds ns).2 =
                  "Date sequence error: " ++ ns.getD i "" ++ " cannot be after "
                    ++ ns.getD (i + 1) "") := by
  induction ds with
  | nil =>
      intro ns _
      rcases ns with _ | ⟨n₀, _ | ⟨n₁, ns⟩⟩ <;> simp [validate_dates_loop, adjPairsOk]
  | cons d₀ ds' ih =>
      cases ds' with
      | nil =>
          intro ns _
          rcases ns with _ | ⟨n₀, _ | ⟨n₁, ns⟩⟩ <;> simp [validate_dates_loop, adjPairsOk]
      | cons d₁ ds'' =>
          intro ns hlen
          rcases ns with _ | ⟨n₀, _ | ⟨n₁, ns'⟩⟩
          · simp at hlen
          · simp at hlen
          · have hlen' : (d₁ :: ds'').length ≤ (n₁ :: ns').length := by
              simp only [List.length_cons] at hlen ⊢
              omega
            have IH := ih (n₁ :: ns') hlen'
            rcases d₀ with _ | a
            · constructor
              · simpa [validate_dates_loop, adjPairsOk, pairOk] using IH.1
              · intro hbad
                have hbad' : adjPairsOk (d₁ :: ds'') = false := by
                  simpa [adjPairsOk, pairOk] using hbad
                obtain ⟨hf, i, hi, hp, hmsg⟩ := IH.2 hbad'
                refine ⟨by simpa [validate_dates_loop] using hf, i + 1, ?_, ?_, ?_⟩
                · simp only [List.length_cons]
                  simp only [List.length_cons] at hi
                  omega
                · simpa using hp
                · simpa [validate_dates_loop] using hmsg
            · rcases d₁ with _ | b
              · constructor
                · simpa [validate_dates_loop, adjPairsOk, pairOk] using IH.1
                · intro hbad
                  have hbad' : adjPairsOk (none :: ds'') = false := by
                    simpa [adjPairsOk, pairOk] using hbad
                  obtain ⟨hf, i, hi, hp, hmsg⟩ := IH.2 hbad'
                  refine ⟨by simpa [validate_dates_loop] using hf, i + 1, ?_, ?_, ?_⟩
                  · simp only [List.length_cons]
                    simp only [List.length_cons] at hi
                    omega
                  · simpa using hp
                  · simpa [validate_dates_loop] using hmsg
              · by_cases hab : a > b
                · constructor
                  · constructor
                    · intro h
                      simp [validate_dates_loop, hab] at h
                    · intro h
                      simp [adjPairsOk, pairOk] at h
                      omega
                  · intro _
                    refine ⟨by simp [validate_dates_loop, hab], 0, by simp, ?_, ?_⟩
                    · simp [pairOk]
                      omega
                    · simp [validate_dates_loop, hab]
                · have hok : pairOk (some a) (some b) = true := by
                    simp [pairOk]; omega
                  constructor
                  · rw [show (validate_dates_loop (some a :: some b :: ds'')
                          (n₀ :: n₁ :: ns')) =
                        validate_dates_loop (some b :: ds'') (n₁ :: ns') by
                        simp [validate_dates_loop, hab]]
                    rw [IH.1]
                    simp [adjPairsOk, hok]
                  · intro hbad
                    have hbad' : adjPairsOk (some b :: ds'') = false := by
                      rcases Bool.and_eq_false_iff.mp
                          (by simpa [adjPairsOk] using hbad) with h | h
                      · rw [hok] at h; exact absurd h (by simp)
                      · exact h
                    obtain ⟨hf, i, hi, hp, hmsg⟩ := IH.2 hbad'
                    refine ⟨by simpa [validate_dates_loop, hab] using hf,
                        i + 1, ?_, ?_, ?_⟩
                    · simp only [List.length_cons]
                      simp only [List.length_cons] at hi
                      omega
                    · simpa using hp
                    · simpa [validate_dates_loop, hab] using hmsg

/-- C1: `validate_dates` succeeds if and only if every adjacent pair of
milestone dates in which both are present is non-decreasing (pairs with a
missing endpoint are skipped); when some adjacent present pair is strictly
out of order, it fails and its message identifies a genuinely violating
adjacent pair. -/
theorem validate_dates_adjacent_pairs (data : ParticipantData) :
    ((validate_dates data).1 = true ↔
       (pairOk data.Date_Symptom_Onset data.Date_First_Visit = true
        ∧ pairOk data.Date_First_Visit data.Date_Diagnosis = true
        ∧ pairOk data.Date_Diagnosis data.Date_Treatment_Start = true))
    ∧ ((pairOk data.Date_Symptom_Onset data.Date_First_Visit = false
        ∨ pairOk data.Date_First_Visit data.Date_Diagnosis = false
        ∨ pairOk data.Date_Diagnosis data.Date_Treatment_Start = false) →
        (validate_dates data).1 = false
        ∧ ∃ i, i < 3
            ∧ pairOk
                ([data.Date_Symptom_Onset, data.Date_First_Visit,
                  data.Date_Diagnosis, data.Date_Treatment_Start].getD i none)
                ([data.Date_Symptom_Onset, data.Date_First_Visit,
                  data.Date_Diagnosis, data.Date_Treatment_Start].getD (i + 1) none)
              = false
            ∧ (validate_dates data).2 = seqErrorMsg i) := by
  have H := validate_dates_loop_spec
      [data.Date_Symptom_Onset, data.Date_First_Visit,
       data.Date_Diagnosis, data.Date_Treatment_Start] date_names
      (by simp [date_names])
  constructor
  · rw [validate_dates, H.1]
    simp [adjPairsOk]
  · intro hbad
    have hbad' : adjPairsOk
        [data.Date_Symptom_Onset, data.Date_First_Visit,
         data.Date_Diagnosis, data.Date_Treatment_Start] = false := by
      rcases hbad with h | h | h <;> simp [adjPairsOk, h]
    obtain ⟨hf, i, hi, hp, hmsg⟩ := H.2 hbad'
    refine ⟨by simpa [validate_dates] using hf, i, ?_, hp, ?_⟩
    · simp only [List.length_cons, List.length_nil] at hi
      omega
    · simpa [validate_dates, seqErrorMsg] using hmsg

/-- Witness for C1 at the Scenario C record (first visit strictly before
symptom onset): validation fails identifying the (onset, first visit)
pair. -/
theorem validate_dates_adjacent_pairs_witness :
    (validate_dates recScenarioC).1 = false
    ∧ (validate_dates recScenarioC).2 = seqErrorMsg 0 :=
  ⟨((validate_dates_adjacent_pairs recScenarioC).2 (by decide)).1, by decide⟩

/-- C3: for the binary 10-item instrument with item 9 reverse-scored, for
all ten raw item values in {0, 1}: the stored value for item 9 is 1 minus
its raw value, flipping item 9's raw input from 0 to 1 decreases its stored
score by 1, the total score is the sum of the ten stored
(polarity-corrected) values, and the total lies in [0, 10]. -/
theorem dhli_binary_scoring (raw : Nat → Int)
    (h : ∀ i ∈ Finset.Icc 1 10, raw i = 0 ∨ raw i = 1) :
    dhli_store 9 (raw 9) = 1 - raw 9
    ∧ dhli_store 9 1 = dhli_store 9 0 - 1
    ∧ dhli_total_score (fun i => dhli_store i (raw i))
        = ∑ i in Finset.Icc 1 10, dhli_store i (raw i)
    ∧ 0 ≤ dhli_total_score (fun i => dhli_store i (raw i))
    ∧ dhli_total_score (fun i => dhli_store i (raw i)) ≤ 10 := by
  have hstore : ∀ i ∈ Finset.Icc 1 10,
      0 ≤ dhli_store i (raw i) ∧ dhli_store i (raw i) ≤ 1 := by
    intro i hi
    have hr := h i hi
    simp only [dhli_store]
    split_ifs <;> rcases hr with h' | h' <;> rw [h'] <;> norm_num
  refine ⟨by simp [dhli_store, dhli_reverse_score],
          by simp [dhli_store, dhli_reverse_score], rfl, ?_, ?_⟩
  · exact Finset.sum_nonneg fun i hi => (hstore i hi).1
  · calc dhli_total_score (fun i => dhli_store i (raw i))
        ≤ ∑ i in Finset.Icc 1 10, (1 : Int) :=
          Finset.sum_le_sum fun i hi => (hstore i hi).2
      _ = 10 := by simp

/-- Witness for C3 at the Scenario D responses (item 9 raw 0, all others
1). -/
theorem dhli_binary_scoring_witness :
    dhli_store 9 (scenarioD_raw 9) = 1 - scenarioD_raw 9
    ∧ 0 ≤ dhli_total_score (fun i => dhli_store i (scenarioD_raw i))
    ∧ dhli_total_score (fun i => dhli_store i (scenarioD_raw i)) ≤ 10 :=
  ⟨(dhli_binary_scoring scenarioD_raw (by decide)).1,
   (dhli_binary_scoring scenarioD_raw (by decide)).2.2.2.1,
   (dhli_binary_scoring scenarioD_raw (by decide)).2.2.2.2⟩

/-- C4: the DHLI banding assigns High exactly for totals ≥ 7, Moderate
exactly for totals in 4..6, Low exactly for totals ≤ 3, and it is
monotonic: a larger total never receives a lower band. -/
theorem dhli_band_classification (t₁ t₂ : Int) (h : t₁ ≤ t₂) :
    (∀ t : Int, (dhli_level t = "High" ↔ 7 ≤ t)
      ∧ (dhli_level t = "Moderate" ↔ 4 ≤ t ∧ t ≤ 6)
      ∧ (dhli_level t = "Low" ↔ t ≤ 3))
    ∧ levelRank (dhli_level t₁) ≤ levelRank (dhli_level t₂) := by
  constructor
  · intro t
    unfold dhli_level
    split_ifs with h₇ h₄ <;> refine ⟨?_, ?_, ?_⟩ <;>
      simp_all <;> omega
  · have rank : ∀ t : Int, levelRank (dhli_level t) =
        if 7 ≤ t then 2 else if 4 ≤ t then 1 else 0 := by
      intro t
      unfold dhli_level
      split_ifs <;> rfl
    rw [rank t₁, rank t₂]
    split_ifs <;> omega

/-- Witness for C4 at totals 3 and 7. -/
theorem dhli_band_classification_witness :
    levelRank (dhli_level 3) ≤ levelRank (dhli_level 7) :=
  (dhli_band_classification 3 7 (by decide)).2

/-- C5: `record_response` fails with `OutOfRangeError` exactly when the raw
value lies outside the instrument's declared per-item domain; inside the
domain it succeeds, storing the reverse-scored transform for a
reverse-scored item and the raw value unchanged otherwise. -/
theorem record_response_domain (spec : InstrumentSpec) (item_index : Nat)
    (raw_value : Int) :
    (record_response spec item_index raw_value
        = Except.error ScoreError.OutOfRangeError
      ↔ ¬ (spec.min_value ≤ raw_value ∧ raw_value ≤ spec.max_value))
    ∧ (spec.min_value ≤ raw_value → raw_value ≤ spec.max_value →
        record_response spec item_index raw_value =
          Except.ok (if spec.reverse_scored item_index
                     then spec.max_value + spec.min_value - raw_value
                     else raw_value)) := by
  unfold record_response
  split_ifs with h₁ h₂ <;> refine ⟨?_, fun ha hb => ?_⟩ <;> simp_all <;> omega

/-- Witness for C5 at the binary DHLI instrument: a raw value of 0 for the
reverse-scored item 9 is stored as 1, and the out-of-domain raw value 2 is
rejected. -/
theorem record_response_domain_witness :
    record_response binary_dhli_spec 9 0 = Except.ok 1
    ∧ record_response binary_dhli_spec 9 2
        = Except.error ScoreError.OutOfRangeError := by
  constructor
  · have h := (record_response_domain binary_dhli_spec 9 0).2
      (by decide) (by decide)
    simpa [binary_dhli_spec] using h
  · exact (record_response_domain binary_dhli_spec 9 2).1.mpr (by decide)

/-- C6: for the 5-point 10-item instrument with every item in 1..5, the
formal total (items 3-10 only) lies in [8, 40]; responses agreeing on items
3-10 have the same total regardless of items 1-2; and the bands are High
exactly for totals ≥ 32, Moderate exactly for 24..31, Low exactly for
totals < 24. -/
theorem likert_scoring (items g : Nat → Int)
    (h : ∀ i ∈ Finset.Icc 1 10, 1 ≤ items i ∧ items i ≤ 5)
    (hg : ∀ i ∈ Finset.Icc 3 10, g i = items i) :
    8 ≤ likert_total_score items
    ∧ likert_total_score items ≤ 40
    ∧ likert_total_score g = likert_total_score items
    ∧ (∀ t : Int, (likert_level t = "High" ↔ 32 ≤ t)
        ∧ (likert_level t = "Moderate" ↔ 24 ≤ t ∧ t ≤ 31)
        ∧ (likert_level t = "Low" ↔ t < 24)) := by
  have hsub : ∀ i ∈ Finset.Icc 3 10, 1 ≤ items i ∧ items i ≤ 5 := by
    intro i hi
    refine h i ?_
    simp only [Finset.mem_Icc] at hi ⊢
    omega
  refine ⟨?_, ?_, ?_, ?_⟩
  · calc (8 : Int) = ∑ _i in Finset.Icc 3 10, (1 : Int) := by simp
      _ ≤ likert_total_score items :=
        Finset.sum_le_sum fun i hi => (hsub i hi).1
  · calc likert_total_score items ≤ ∑ _i in Finset.Icc 3 10, (5 : Int) :=
        Finset.sum_le_sum fun i hi => (hsub i hi).2
      _ = 40 := by simp
  · exact Finset.sum_congr rfl hg
  · intro t
    unfold likert_level
    split_ifs <;> refine ⟨?_, ?_, ?_⟩ <;> simp_all <;> omega

/-- Witness for C6 at the Scenario E responses (items 3-10 all 3) and a
variant differing only on the supplementary items 1-2. -/
theorem likert_scoring_witness :
    8 ≤ likert_total_score scenarioE_items
    ∧ likert_total_score scenarioE_items ≤ 40
    ∧ likert_total_score scenarioE_alt = likert_total_score scenarioE_items := by
  have h := likert_scoring scenarioE_items scenarioE_alt (by decide) (by decide)
  exact ⟨h.1, h.2.1, h.2.2.1⟩
